import Mathlib

/-!
# Verification of the video-translate task-orchestration core

Shallow embedding of the dispatcher / lease / heartbeat / orphan-rescue /
pipeline logic of `backend/app` (queue.py, crud.py, routes/tasks.py,
processors/utils.py, processors/video_pipeline.py), together with theorems
settling the specification claims.

Conventions:
* `datetime` values are modelled as integers (seconds); durations are integers
  (all thresholds in the source are whole seconds read from the environment).
* SQLAlchemy nullable columns are `Option _`; `created_at` has a non-null
  default (`datetime.utcnow`) and is modelled as a plain `Int`.
* Python truthiness of `x or d` on optional integers: `None` and `0` are falsy.
* Exceptions are `Except String _`; the "Cancelled" RuntimeError is the string
  `"Cancelled"` exactly as in the source.
-/

namespace VT

/-- Python `x or d` for an optional integer (`None` and `0` are falsy). -/
def pyOrInt (x : Option Int) (d : Int) : Int :=
  match x with
  | none => d
  | some v => if v = 0 then d else v

/-- Python `s or d` for an optional string (`None` and `""` are falsy). -/
def pyOrStr (x : Option String) (d : String) : String :=
  match x with
  | none => d
  | some v => if v = "" then d else v

/-- One subtitle row (`models.Subtitle`), restricted to the fields the core
touches. -/
structure Subtitle where
  sequence : Int
  start_time : ℚ
  end_time : ℚ
  start_time_srt : String
  end_time_srt : String
  original_text : String
  translated_text : Option String
  deriving Repr, DecidableEq

/-- The task row (`models.Task`), restricted to the fields the orchestration
core reads or writes. -/
structure Task where
  id : Int
  user_id : String
  queued_for : String
  status : String
  progress : Option Int
  msg : Option String
  error_msg : Option String
  video_file : String
  vocal_file : Option String
  bg_video_file : Option String
  tts_file : Option String
  final_video_file : Option String
  video_duration_seconds : ℚ
  subtitle_format : Option String
  subtitles : List Subtitle
  translation_confirmed_at : Option Int
  created_at : Int
  enqueued_at : Option Int
  worker_id : Option String
  lease_until : Option Int
  heartbeat_at : Option Int
  processing_started_at : Option Int
  attempt : Option Int
  max_attempts : Option Int
  deriving Repr, DecidableEq

/-- Environment-derived configuration constants of `queue.py` /
`video_pipeline.py`, with their source defaults. -/
structure Config where
  MAX_PARALLEL : Nat := 1
  LEASE_SECONDS : Int := 600
  HEARTBEAT_SECONDS : Int := 15
  STALE_SECONDS : Int := 120
  MAX_PROCESSING_SECONDS : Int := 600
  MAX_RETRIES : Int := 0
  MAX_VIDEO_SECONDS : ℚ := 300
  deriving Repr

def defaultCfg : Config := {}

/-! ## In-memory fallback retry table (`_memory_attempts` in queue.py) -/

/-- The process-local fallback attempt table, `dict[int, int]` with
`get(task_id, 0)` read semantics. -/
def MemAttempts := Int → Int

/-- `_inc_memory_attempt`: bump and return the new count. -/
def incMemoryAttempt (m : MemAttempts) (taskId : Int) : MemAttempts × Int :=
  let v := m taskId + 1
  (fun k => if k = taskId then v else m k, v)

/-- `_reset_memory_attempt`: pop the entry (subsequent reads yield 0). -/
def resetMemoryAttempt (m : MemAttempts) (taskId : Int) : MemAttempts :=
  fun k => if k = taskId then 0 else m k

/-! ## Orphan rescue (`_rescue_orphan_tasks`) -/

/-- Anchor for the processing-stage clock: `processing_started_at`, falling
back to `heartbeat_at`, then `created_at` (queue.py lines 194-200). -/
def rescueStart (t : Task) : Int :=
  match t.processing_started_at with
  | some v => v
  | none =>
    match t.heartbeat_at with
    | some v => v
    | none => t.created_at

/-- `processing_seconds = (now - started).total_seconds()`. -/
def processingSeconds (now : Int) (t : Task) : Int :=
  now - rescueStart t

/-- `lease_expired`: lease set and strictly in the past. -/
def leaseExpired (now : Int) (t : Task) : Bool :=
  match t.lease_until with
  | some v => decide (v < now)
  | none => false

/-- `heartbeat_stale`: heartbeat absent or strictly older than
`now - STALE_SECONDS`. -/
def heartbeatStale (staleEdge : Int) (t : Task) : Bool :=
  match t.heartbeat_at with
  | some v => decide (v < staleEdge)
  | none => true

/-- `over_processing_cap`: processing-stage elapsed time strictly above the
hard cap. -/
def overProcessingCap (cfg : Config) (now : Int) (t : Task) : Bool :=
  decide (processingSeconds now t > cfg.MAX_PROCESSING_SECONDS)

/-- The orphan test of `_rescue_orphan_tasks` (any of the three conditions). -/
def isOrphan (cfg : Config) (now : Int) (t : Task) : Bool :=
  leaseExpired now t || heartbeatStale (now - cfg.STALE_SECONDS) t
    || overProcessingCap cfg now t

/-- The matched-condition labels, in source order. -/
def rescueReasons (cfg : Config) (now : Int) (t : Task) : List String :=
  (if leaseExpired now t then ["lease_expired"] else [])
    ++ (if heartbeatStale (now - cfg.STALE_SECONDS) t then ["heartbeat_stale"] else [])
    ++ (if overProcessingCap cfg now t
        then ["processing>" ++ toString cfg.MAX_PROCESSING_SECONDS ++ "s"] else [])

/-- Rescue handling of a single PROCESSING task (the body of the `for` loop in
`_rescue_orphan_tasks`, including the final memory-table reset). Returns the
updated row and fallback table. -/
def rescueOne (cfg : Config) (now : Int) (mem : MemAttempts) (t : Task) :
    Task × MemAttempts :=
  if t.status ≠ "PROCESSING" then (t, mem)
  else if ¬ isOrphan cfg now t then (t, mem)
  else
    let reasons := String.intercalate ", " (rescueReasons cfg now t)
    let (t1, mem1) :=
      match t.max_attempts with
      | some maxA =>
        -- can_retry_by_model: both columns exist on the model, so this path
        -- is taken exactly when max_attempts is not None
        let att := pyOrInt t.attempt 0 + 1
        let t' := { t with attempt := some att }
        if maxA - att ≥ 0 then
          ({ t' with status := "QUEUED", enqueued_at := some now,
                     error_msg := some ("检测到任务失联/超时（" ++ reasons
                       ++ "），自动重试第 " ++ toString att ++ " 次。") }, mem)
        else
          ({ t' with status := "FAILED",
                     error_msg := some ("任务失联/超时并达到最大重试次数（"
                       ++ reasons ++ "）。") }, mem)
      | none =>
        let (mem', att) := incMemoryAttempt mem t.id
        if att ≤ cfg.MAX_RETRIES then
          ({ t with status := "QUEUED", enqueued_at := some now,
                    error_msg := some ("检测到任务失联/超时（" ++ reasons
                      ++ "），自动重试第 " ++ toString att ++ " 次。") }, mem')
        else
          ({ t with status := "FAILED",
                    error_msg := some ("任务失联/超时并达到最大重试次数（"
                      ++ reasons ++ "）。") }, mem')
    let t2 := { t1 with worker_id := none, lease_until := none,
                        heartbeat_at := none, processing_started_at := none }
    let mem2 := if t2.status = "FAILED" then resetMemoryAttempt mem1 t.id else mem1
    (t2, mem2)

/-- `_rescue_orphan_tasks` over the whole store: every PROCESSING row passes
through `rescueOne`, threading the fallback table left to right. -/
def rescueOrphanTasks (cfg : Config) (now : Int) (mem : MemAttempts)
    (tasks : List Task) : List Task × MemAttempts :=
  match tasks with
  | [] => ([], mem)
  | t :: rest =>
    let r := rescueOne cfg now mem t
    let rr := rescueOrphanTasks cfg now r.2 rest
    (r.1 :: rr.1, rr.2)

/-! ## Queue ordering and position (`crud.py`) -/

/-- `COALESCE(enqueued_at, created_at)` — the queue order key. -/
def orderKey (t : Task) : Int :=
  t.enqueued_at.getD t.created_at

/-- Strict "earlier in queue" comparison used by `queue_position_and_length`:
`key < task_key OR (key = task_key AND id < id)`. -/
def queueBefore (u t : Task) : Bool :=
  decide (orderKey u < orderKey t) ||
    (decide (orderKey u = orderKey t) && decide (u.id < t.id))

/-- `count_queued`. -/
def countQueued (tasks : List Task) : Nat :=
  (tasks.filter (fun t => t.status = "QUEUED")).length

/-- `count_processing`. -/
def countProcessing (tasks : List Task) : Nat :=
  (tasks.filter (fun t => t.status = "PROCESSING")).length

/-- `queue_position_and_length`. -/
def queuePositionAndLength (tasks : List Task) (t : Task) : Nat × Nat :=
  if t.status ≠ "QUEUED" then (0, 0)
  else
    let total := countQueued tasks
    let ahead := (tasks.filter
      (fun u => u.status = "QUEUED" && queueBefore u t)).length
    let pos := if total > 0 then min total (ahead + 1) else 0
    (pos, total)

/-- The `ORDER BY` relation of `list_queue`: order key ascending, id
ascending. -/
def queueLE (u t : Task) : Prop :=
  orderKey u < orderKey t ∨ (orderKey u = orderKey t ∧ u.id ≤ t.id)

instance : DecidableRel queueLE := fun u t => by
  unfold queueLE; infer_instance

instance : IsTotal Task queueLE where
  total u t := by
    unfold queueLE
    rcases lt_trichotomy (orderKey u) (orderKey t) with h | h | h
    · exact Or.inl (Or.inl h)
    · rcases le_total u.id t.id with h2 | h2
      · exact Or.inl (Or.inr ⟨h, h2⟩)
      · exact Or.inr (Or.inr ⟨h.symm, h2⟩)
    · exact Or.inr (Or.inl h)

instance : IsTrans Task queueLE where
  trans a b c hab hbc := by
    unfold queueLE at *
    rcases hab with h1 | ⟨h1, h1'⟩ <;> rcases hbc with h2 | ⟨h2, h2'⟩
    · exact Or.inl (h1.trans h2)
    · exact Or.inl (h2 ▸ h1)
    · exact Or.inl (h1 ▸ h2)
    · exact Or.inr ⟨h1.trans h2, h1'.trans h2'⟩

/-- `list_queue`: the QUEUED rows sorted by the order key (ties by id). -/
def listQueue (tasks : List Task) : List Task :=
  List.insertionSort queueLE (tasks.filter (fun t => t.status = "QUEUED"))

/-! ## Heartbeat loop body (`_heartbeat_loop`) -/

/-- One tick of `_heartbeat_loop` after the sleep: reads the task (`none` if
gone), clears ownership and exits on ownership/stage loss, otherwise refreshes
heartbeat and lease. Returns the written row and whether the loop returns. -/
def heartbeatTick (cfg : Config) (workerId : String) (now : Int)
    (t? : Option Task) : Option Task × Bool :=
  match t? with
  | none => (none, true)
  | some t =>
    let notOwner : Bool := match t.worker_id with
      | some w => decide (w ≠ workerId)
      | none => false
    let notProcessing : Bool := decide (t.status ≠ "PROCESSING")
    if notOwner || notProcessing then
      (some { t with worker_id := none, lease_until := none,
                     heartbeat_at := none, processing_started_at := none }, true)
    else
      (some { t with heartbeat_at := some now,
                     lease_until := some (now + cfg.LEASE_SECONDS) }, false)

/-! ## Dispatcher tick (`dispatcher`): rescue, then admission -/

/-- Admission write for one queued task (dispatcher lines 279-290). -/
def admitTask (cfg : Config) (workerId : String) (now : Int) (t : Task) : Task :=
  { t with status := "PROCESSING", worker_id := some workerId,
           lease_until := some (now + cfg.LEASE_SECONDS),
           heartbeat_at := some now, processing_started_at := some now }

/-- One dispatcher tick over the store: `_rescue_orphan_tasks`, then admit the
first `MAX_PARALLEL - running` queued tasks in queue order (skipping rows no
longer QUEUED). -/
def dispatcherTick (cfg : Config) (workerId : String) (now : Int)
    (mem : MemAttempts) (tasks : List Task) : List Task × MemAttempts :=
  let r := rescueOrphanTasks cfg now mem tasks
  let running := countProcessing r.1
  let slots := cfg.MAX_PARALLEL - running
  let chosen := ((listQueue r.1).take slots).filter
    (fun t => t.status = "QUEUED")
  let tasks2 := r.1.map (fun t =>
    if chosen.any (fun c => c.id = t.id) ∧ t.status = "QUEUED"
    then admitTask cfg workerId now t else t)
  (tasks2, r.2)

/-! ## Task routes (`routes/tasks.py`), success paths -/

/-- `confirm` (after the per-user queue-slot check passed). -/
def confirmStep (now : Int) (t : Task) : Task :=
  { t with status := "QUEUED",
           progress := some (max 40 (pyOrInt t.progress 40)),
           queued_for := "finalize",
           enqueued_at := some now }

/-- `reburn` route (after the queue-slot check passed). -/
def reburnStep (now : Int) (t : Task) : Task :=
  { t with status := "QUEUED",
           progress := some (max 40 (pyOrInt t.progress 40)),
           queued_for := "reburn",
           enqueued_at := some now }

/-- `restart` route (after the queue-slot check passed). -/
def restartStep (now : Int) (t : Task) : Task :=
  { t with vocal_file := none, bg_video_file := none, tts_file := none,
           final_video_file := none,
           status := "QUEUED", progress := some 0, queued_for := "prepare",
           error_msg := some "", msg := some "",
           worker_id := none, lease_until := none,
           heartbeat_at := none, processing_started_at := none,
           enqueued_at := some now,
           subtitles := [] }

/-! ## Killable process runner (`processors/utils.py`, `killable_run`)

The subprocess is modelled by its observable behaviour: `exitAt` is the number
of poll ticks before `p.poll()` returns the exit code `rc`; `stderr` is the
collected standard-error text. `stop i` is the value `is_stop_requested`
returns at the i-th poll tick; `hasTask` says whether a `task_id` was given. -/

/-- Outcome of `killable_run`: normal return, the `Command failed` RuntimeError
(when `check` and the exit code is non-zero), or the `Cancelled` RuntimeError. -/
inductive RunOutcome where
  | completed (rc : Int)
  | commandFailed (msg : String)
  | cancelled
  deriving Repr, DecidableEq

/-- OS-level actions performed on the cancellation path. -/
inductive KillEffect where
  | sigtermGroup
  | graceSleep
  | sigkillGroup
  deriving Repr, DecidableEq

/-- Python `s[-n:]`. -/
def strTakeRight (s : String) (n : Nat) : String :=
  String.mk (s.data.drop (s.data.length - n))

/-- The `Command failed` message with the last 2000 characters of stderr. -/
def commandFailedMsg (cmd : List String) (rc : Int) (stderr : String) : String :=
  "Command failed (" ++ toString rc ++ "): " ++ String.intercalate " " cmd
    ++ "\n" ++ strTakeRight stderr 2000

/-- The polling loop of `killable_run`, from poll tick `i`. -/
def killableRunGo (cmd : List String) (exitAt : Nat) (rc : Int) (stderr : String)
    (stop : Nat → Bool) (hasTask check : Bool) (i : Nat) :
    RunOutcome × List KillEffect :=
  if exitAt ≤ i then
    -- p.poll() returned; communicate(), then the check
    if check ∧ rc ≠ 0 then (.commandFailed (commandFailedMsg cmd rc stderr), [])
    else (.completed rc, [])
  else if hasTask && stop i then
    (.cancelled, [.sigtermGroup, .graceSleep, .sigkillGroup])
  else
    killableRunGo cmd exitAt rc stderr stop hasTask check (i + 1)
termination_by exitAt - i
decreasing_by omega

/-- `killable_run` itself (starting at poll tick 0). -/
def killableRun (cmd : List String) (exitAt : Nat) (rc : Int) (stderr : String)
    (stop : Nat → Bool) (hasTask check : Bool) : RunOutcome × List KillEffect :=
  killableRunGo cmd exitAt rc stderr stop hasTask check 0

/-! ## SRT timestamps (`format_srt_timestamp`, `parse_time_to_seconds`) -/

/-- Python 3 `round` to an integer: round half to even. Real-number seconds
are modelled as rationals. -/
def roundHalfEven (q : ℚ) : ℤ :=
  let f := ⌊q⌋
  if q - f < 1/2 then f
  else if q - f > 1/2 then f + 1
  else if f % 2 = 0 then f else f + 1

/-- Left zero-padding to width `w` (Python `{n:0wd}` keeps longer numerals). -/
def zfill (w : Nat) (cs : List Char) : List Char :=
  List.replicate (w - cs.length) '0' ++ cs

/-- The `HH:MM:SS,mmm` rendering of a non-negative millisecond count (the
divmod cascade and f-string of `format_srt_timestamp`). -/
def msToSrt (ms : Nat) : String :=
  let h := ms / 3600000
  let r1 := ms % 3600000
  let m := r1 / 60000
  let r2 := r1 % 60000
  let s := r2 / 1000
  let msf := r2 % 1000
  String.mk (zfill 2 (Nat.toDigits 10 h) ++ ':' :: (zfill 2 (Nat.toDigits 10 m)
    ++ ':' :: (zfill 2 (Nat.toDigits 10 s) ++ ',' :: zfill 3 (Nat.toDigits 10 msf))))

/-- `format_srt_timestamp`: `ms = max(0, int(round(seconds * 1000)))`, then
the divmod cascade. -/
def format_srt_timestamp (seconds : ℚ) : String :=
  msToSrt (max 0 (roundHalfEven (seconds * 1000))).toNat

/-- Longest digit prefix (regex greedy `\d*`). -/
def takeDigits : List Char → List Char × List Char
  | [] => ([], [])
  | c :: rest =>
    if c.isDigit then
      (c :: (takeDigits rest).1, (takeDigits rest).2)
    else ([], c :: rest)

/-- Numeric value of a digit string. -/
def digitsVal (cs : List Char) : Nat :=
  cs.foldl (fun a c => 10 * a + (c.toNat - 48)) 0

/-- `int((group or "0").ljust(3, "0")[:3])` for a 1-3 digit millisecond
group. -/
def msOfDigits (d : List Char) : Nat :=
  digitsVal d * 10 ^ (3 - d.length)

/-- The regex `^(\d{1,2}):(\d{2}):(\d{2})([.,](\d{1,3}))?$` of
`parse_time_to_seconds`, as a deterministic matcher (each `\d{..}` group is
followed by a non-digit or the end, so greedy digit-taking is exact). -/
def parseSrtMatch (cs : List Char) : Option (Nat × Nat × Nat × Nat) :=
  let p1 := takeDigits cs
  if p1.1.length = 0 ∨ p1.1.length > 2 then none
  else
    match p1.2 with
    | ':' :: r2 =>
      let p2 := takeDigits r2
      if p2.1.length ≠ 2 then none
      else
        match p2.2 with
        | ':' :: r4 =>
          let p3 := takeDigits r4
          if p3.1.length ≠ 2 then none
          else
            match p3.2 with
            | [] => some (digitsVal p1.1, digitsVal p2.1, digitsVal p3.1, 0)
            | c :: r6 =>
              if c = ',' ∨ c = '.' then
                let p4 := takeDigits r6
                if p4.1.length = 0 ∨ p4.1.length > 3 ∨ p4.2 ≠ [] then none
                else some (digitsVal p1.1, digitsVal p2.1, digitsVal p3.1,
                  msOfDigits p4.1)
              else none
        | _ => none
    | _ => none

/-- Python `float(v)` on an already-stripped string: optional sign, decimal
digits with optional point, optional exponent (special values like `inf`/`nan`
and underscores never arise from timestamps and are not modelled). -/
def pyFloat (cs : List Char) : Option ℚ :=
  let (sign, cs1) : ℚ × List Char :=
    match cs with
    | '+' :: r => (1, r)
    | '-' :: r => (-1, r)
    | _ => (1, cs)
  let (ip, cs2) := takeDigits cs1
  let (fp, cs3) : List Char × List Char :=
    match cs2 with
    | '.' :: r => takeDigits r
    | _ => ([], cs2)
  if ip.length = 0 ∧ fp.length = 0 then none
  else
    let mant : ℚ := (digitsVal ip : ℚ) + (digitsVal fp : ℚ) / ((10 : ℚ) ^ fp.length)
    match cs3 with
    | [] => some (sign * mant)
    | e :: r =>
      if e = 'e' ∨ e = 'E' then
        let (esign, r1) : ℤ × List Char :=
          match r with
          | '+' :: rr => (1, rr)
          | '-' :: rr => (-1, rr)
          | _ => (1, r)
        let (ed, r2) := takeDigits r1
        if ed.length = 0 ∨ r2 ≠ [] then none
        else some (sign * mant * (10 : ℚ) ^ (esign * (digitsVal ed : ℤ)))
      else none

/-- Python `str.strip()`. -/
def stripChars (cs : List Char) : List Char :=
  ((cs.dropWhile Char.isWhitespace).reverse.dropWhile Char.isWhitespace).reverse

/-- `parse_time_to_seconds`. Note that in the source the negative-seconds
`ValidationError` is raised inside the `try` block and is therefore itself
caught by `except Exception`, being replaced by the generic format error. -/
def parse_time_to_seconds (v : String) : Except String ℚ :=
  let cs := stripChars v.data
  if cs = [] then .error "时间不能为空。"
  else
    match parseSrtMatch cs with
    | some (h, m, s, ms) =>
      .ok ((h : ℚ) * 3600 + (m : ℚ) * 60 + (s : ℚ) + (ms : ℚ) / 1000)
    | none =>
      match pyFloat cs with
      | some sec =>
        if sec < 0 then
          .error "时间格式不正确，请填写 SRT 时间（如 00:01:23,456）或秒数（如 83.456）。"
        else .ok sec
      | none =>
        .error "时间格式不正确，请填写 SRT 时间（如 00:01:23,456）或秒数（如 83.456）。"

/-! ## Pipeline stage executors (`processors/video_pipeline.py`)

External collaborators (ffmpeg/demucs subprocesses, Whisper, the translator,
the TTS backend) are modelled by their observable results, supplied in an
environment record. `stop k` is the value of the k-th `is_stop_requested`
poll made during the run (the flag is external mutable state and may flip
mid-run). Artifact path strings are opaque to the core; the
`{id}_{created_at:%Y%m%d_%H%M%S}` filename suffix is abstracted to the id. -/

/-- One transcription segment (`transcribe_vocal_to_subtitles` output). -/
structure Seg where
  sequence : Int
  start_time : ℚ
  end_time : ℚ
  original_text : String
  deriving Repr, DecidableEq

/-- Collaborator results for one `process_prepare` run. `.error e` models the
call raising `RuntimeError(e)`; `"Cancelled"` is the cancellation error. -/
structure PrepareEnv where
  stop : Nat → Bool
  probe : Except String ℚ
  extract : Except String Unit
  separate : Except String Unit
  muxBg : Except String Unit
  segs : List Seg
  translate : Except String ((Int → Option String) × Bool × String)

/-- Relative artifact paths (filename timestamp suffix abstracted). -/
def vocalRel (t : Task) : String := "vocals/vocal_" ++ toString t.id ++ ".wav"

def bgRel (t : Task) : String :=
  "videos_novocals/video_novocals_" ++ toString t.id ++ ".mp4"

def ttsRel (t : Task) : String := "tts/tts_" ++ toString t.id ++ ".wav"

def finalRel (t : Task) : String := "final_videos/final_" ++ toString t.id ++ ".mp4"

/-- `_fail`: write status and both message fields. -/
def failWith (t : Task) (errMsg status : String) : Task :=
  { t with status := status, error_msg := some errMsg, msg := some errMsg }

/-- `_advance`: monotone progress bump plus message write (the cancellation
check that follows re-writes the same message, so the cancelled state equals
the advanced state). -/
def advance (t : Task) (p : Int) (m : String) : Task :=
  { t with progress := some (max p (pyOrInt t.progress p)), msg := some m }

/-- The `except` handler of `process_prepare`: `Cancelled` exits quietly,
anything else fails the task. The exception text `{type(e).__name__}: {e}` is
abstracted to the error string. -/
def prepExn (t : Task) (e : String) : Task :=
  if e = "Cancelled" then t else failWith t ("阶段一异常：" ++ e) "FAILED"

/-- Subtitle row built from a transcription segment. -/
def subtitleOfSeg (s : Seg) : Subtitle :=
  { sequence := s.sequence, start_time := s.start_time, end_time := s.end_time,
    start_time_srt := format_srt_timestamp s.start_time,
    end_time_srt := format_srt_timestamp s.end_time,
    original_text := s.original_text, translated_text := none }

/-- `process_prepare` from the audio-extraction step on (`k` is the index of
the next `is_stop_requested` poll, which depends on whether the duration
branch ran). -/
def preparePost (env : PrepareEnv) (k : Nat) (t : Task) : Task :=
  let t := advance t 10 "音频提取中..."
  if env.stop k then t
  else
    match env.extract with
    | .error e => prepExn t e
    | .ok _ =>
      let t := advance t 15 "人声分离中..."
      if env.stop (k + 1) then t
      else
        match env.separate with
        | .error e => prepExn t e
        | .ok _ =>
          let t := { t with vocal_file := some (vocalRel t) }
          let t := advance t 20 "背景视频合成中..."
          if env.stop (k + 2) then t
          else
            match env.muxBg with
            | .error e => prepExn t e
            | .ok _ =>
              let t := { t with bg_video_file := some (bgRel t) }
              let t := advance t 25 "音频识别中..."
              if env.stop (k + 3) then t
              else
                let t := { t with subtitles := env.segs.map subtitleOfSeg }
                let t := advance t 30 "字幕翻译中..."
                if env.stop (k + 4) then t
                else if env.stop (k + 5) then { t with msg := some "已停止：翻译前" }
                else
                  match env.translate with
                  | .error e => prepExn t e
                  | .ok (mapping, ok, m) =>
                    if env.stop (k + 6) then { t with msg := some "已停止：翻译后" }
                    else if ¬ ok then
                      failWith t (pyOrStr (some m) "字幕翻译失败") "FAILED"
                    else
                      let fill := fun (sub : Subtitle) =>
                        { sub with translated_text := some ((mapping sub.sequence).getD sub.original_text) }
                      let t := { t with subtitles := t.subtitles.map fill }
                      { t with status := "REVIEW", progress := some 60,
                               msg := some "翻译完成，等待人工确认" }

/-- `process_prepare`. The media-duration probe runs only when the stored
`video_duration_seconds` is below 0.1. -/
def processPrepare (cfg : Config) (env : PrepareEnv) (t0 : Task) : Task :=
  let t1 := { t0 with status := "PROCESSING",
                      progress := some (max 5 (pyOrInt t0.progress 5)),
                      msg := some "开始处理" }
  if env.stop 0 then { t1 with msg := some "已停止：开始处理阶段" }
  -- the status/progress/msg writes do not touch video_duration_seconds,
  -- so the guard reads the same value the source reads off the task row
  else if t0.video_duration_seconds < 1 / 10 then
    let t2 := advance t1 8 "读取视频信息..."
    if env.stop 1 then t2
    else
      match env.probe with
      | .error e => prepExn t2 e
      | .ok duration =>
        let t3 := { t2 with video_duration_seconds := duration }
        if duration > cfg.MAX_VIDEO_SECONDS then
          failWith t3 ("视频过长：" ++ toString duration ++ "s（限制≤"
            ++ toString cfg.MAX_VIDEO_SECONDS ++ "s）") "FAILED"
        else preparePost env 2 t3
  else preparePost env 1 t1

/-- Collaborator results for one `process_finalize` run. `srt_to_tts` returns
an `(ok, msg)` pair; `make_final_video` either succeeds or raises. -/
structure FinalizeEnv where
  stop : Nat → Bool
  tts_ok : Bool
  tts_msg : String
  mux : Except String Unit
  publish : Option String

/-- The `except` handler of `process_finalize`: `Cancelled` exits quietly,
anything else reverts the task to REVIEW. -/
def finExn (t : Task) (e : String) : Task :=
  if e = "Cancelled" then t else failWith t ("阶段二异常：" ++ e) "REVIEW"

/-- The final-video mux and publish tail of `process_finalize` (from the
post-`_advance 90` cancellation check on). -/
def finalizeMux (env : FinalizeEnv) (t : Task) : Task :=
  if env.stop 5 then t
  else if t.bg_video_file = none then failWith t "缺少无声视频" "REVIEW"
  else
    match env.mux with
    | .error e => finExn t e
    | .ok _ =>
      if env.stop 6 then { t with msg := some "已停止：最终视频生成后" }
      else
        let t' := { t with final_video_file := some (finalRel t) }
        { t' with status := "SUCCESS", progress := some 100,
                  msg := some "处理完成" }

/-- The TTS step of `process_finalize` and everything after it. -/
def finalizeTTS (env : FinalizeEnv) (t : Task) : Task :=
  if ¬ env.tts_ok then
    if env.stop 4 then
      { t with status := "REVIEW", msg := some "已停止：TTS 合成中" }
    else failWith t ("TTS 失败：" ++ env.tts_msg) "REVIEW"
  else
    let t' := { t with tts_file := some (ttsRel t) }
    if env.stop 4 then { t' with msg := some "已停止：TTS 完成后" }
    else finalizeMux env (advance t' 90 "最终视频合成中...")

/-- `process_finalize`. Pure local computations that never touch task state
(SRT/ASS file rendering, the reference-voice selection) are elided; the
subtitle-format choice does not change any task field. -/
def processFinalize (env : FinalizeEnv) (now : Int) (t0 : Task) : Task :=
  if t0.status ≠ "REVIEW" ∧ t0.status ≠ "PROCESSING" ∧ t0.status ≠ "SUCCESS" then
    t0
  else
    let t := { t0 with status := "PROCESSING", progress := some 70,
                       msg := some "语音合成中...",
                       translation_confirmed_at := some now }
    if env.stop 0 then { t with msg := some "已停止：准备合成" }
    else if env.stop 1 then { t with msg := some "已停止：写入SRT后" }
    else if env.stop 2 then { t with msg := some "已停止：字幕准备就绪" }
    else
      let t' := advance t 75 "TTS 合成中..."
      if env.stop 3 then t' else finalizeTTS env t'

/-! ## Spec-side predicates and concrete fixtures -/

/-- Processing-stage elapsed time as the claim words it: anchored at
`processing_started_at`, falling back to `heartbeat_at`, then `created_at`. -/
def specElapsed (now : Int) (t : Task) : Int :=
  match t.processing_started_at with
  | some a => now - a
  | none =>
    match t.heartbeat_at with
    | some a => now - a
    | none => now - t.created_at

/-- The orphan condition as the claim states it: lease set and in the past,
or heartbeat absent or older than the staleness threshold, or processing-stage
elapsed time above the hard cap. -/
def orphanSpec (cfg : Config) (now : Int) (t : Task) : Prop :=
  (∃ d, t.lease_until = some d ∧ d < now)
    ∨ (t.heartbeat_at = none
        ∨ ∃ b, t.heartbeat_at = some b ∧ b < now - cfg.STALE_SECONDS)
    ∨ specElapsed now t > cfg.MAX_PROCESSING_SECONDS

/-- Substring test (contiguous occurrence of `pat` in `hay`). -/
def listContains (pat : List Char) : List Char → Bool
  | [] => decide (pat = [])
  | c :: rest => pat.isPrefixOf (c :: rest) || listContains pat rest

/-- Whether `pat` occurs in `hay`. -/
def strContainsSub (hay pat : String) : Bool :=
  listContains pat.data hay.data

/-- Empty in-memory fallback retry table. -/
def mem0 : MemAttempts := fun _ => 0

/-- A baseline task row used by concrete scenarios. -/
def mkTask (id : Int) : Task :=
  { id := id, user_id := "u", queued_for := "prepare", status := "QUEUED",
    progress := some 0, msg := none, error_msg := none, video_file := "v.mp4",
    vocal_file := none, bg_video_file := none, tts_file := none,
    final_video_file := none, video_duration_seconds := 0,
    subtitle_format := some "ass", subtitles := [],
    translation_confirmed_at := none, created_at := 0, enqueued_at := none,
    worker_id := none, lease_until := none, heartbeat_at := none,
    processing_started_at := none, attempt := some 0, max_attempts := some 0 }

/-! ## C1: orphan detection condition and unconditional ownership clearing -/

/-- C1: a PROCESSING task is treated as orphaned by one rescue pass exactly
when its lease is set and expired, or its heartbeat is absent or older than
the staleness threshold, or its processing-stage elapsed time (anchored at
`processing_started_at`, falling back to `heartbeat_at`, then `created_at`)
exceeds the hard cap; a non-orphan is left untouched, and on detection all
four ownership fields are cleared unconditionally, whether the task is
requeued or failed. -/
theorem rescue_orphan_detection_and_clearing (cfg : Config) (now : Int)
    (mem : MemAttempts) (t : Task) (hst : t.status = "PROCESSING") :
    (isOrphan cfg now t = true ↔ orphanSpec cfg now t)
    ∧ (¬ orphanSpec cfg now t → rescueOne cfg now mem t = (t, mem))
    ∧ (orphanSpec cfg now t →
        (rescueOne cfg now mem t).1.worker_id = none
        ∧ (rescueOne cfg now mem t).1.lease_until = none
        ∧ (rescueOne cfg now mem t).1.heartbeat_at = none
        ∧ (rescueOne cfg now mem t).1.processing_started_at = none
        ∧ ((rescueOne cfg now mem t).1.status = "QUEUED"
            ∨ (rescueOne cfg now mem t).1.status = "FAILED")) := by
  have hiff : isOrphan cfg now t = true ↔ orphanSpec cfg now t := by
    unfold isOrphan orphanSpec leaseExpired heartbeatStale overProcessingCap
      processingSeconds rescueStart specElapsed
    cases t.lease_until <;> cases t.heartbeat_at <;>
      cases t.processing_started_at <;> simp <;> tauto
  refine ⟨hiff, ?_, ?_⟩
  · intro hno
    have hfalse : isOrphan cfg now t = false := by
      cases h : isOrphan cfg now t
      · rfl
      · exact absurd (hiff.mp h) hno
    simp [rescueOne, hst, hfalse]
  · intro hyes
    have horph : isOrphan cfg now t = true := hiff.mpr hyes
    cases hm : t.max_attempts <;>
      simp [rescueOne, hst, horph, hm] <;> split <;> simp

/-- Witness for C1: a PROCESSING task with an expired lease is an orphan and
its ownership fields are cleared by the rescue pass. -/
theorem rescue_orphan_detection_and_clearing_witness :
    ({ mkTask 1 with status := "PROCESSING",
                     lease_until := some 0 } : Task).status = "PROCESSING"
    ∧ orphanSpec defaultCfg 1000
        { mkTask 1 with status := "PROCESSING", lease_until := some 0 }
    ∧ (rescueOne defaultCfg 1000 mem0
        { mkTask 1 with status := "PROCESSING", lease_until := some 0 }).1.worker_id
        = none := by
  have hspec : orphanSpec defaultCfg 1000
      { mkTask 1 with status := "PROCESSING", lease_until := some 0 } :=
    Or.inl ⟨0, rfl, by norm_num⟩
  exact ⟨rfl, hspec,
    ((rescue_orphan_detection_and_clearing defaultCfg 1000 mem0
      { mkTask 1 with status := "PROCESSING", lease_until := some 0 }
      rfl).2.2 hspec).1⟩

/-! ## C5: heartbeat tick behaviour -/

/-- C5: on a heartbeat tick, a vanished task terminates the loop; a task owned
by a different worker or no longer PROCESSING has all four ownership fields
cleared and the loop terminates; otherwise `heartbeat_at` is set to now and
`lease_until` is pushed to now plus the lease duration and the loop
continues. -/
theorem heartbeat_tick_spec (cfg : Config) (workerId : String) (now : Int)
    (t : Task) :
    heartbeatTick cfg workerId now none = (none, true)
    ∧ ((∃ w, t.worker_id = some w ∧ w ≠ workerId) ∨ t.status ≠ "PROCESSING" →
        heartbeatTick cfg workerId now (some t)
          = (some { t with worker_id := none, lease_until := none,
                           heartbeat_at := none, processing_started_at := none },
             true))
    ∧ ((t.worker_id = none ∨ t.worker_id = some workerId) →
        t.status = "PROCESSING" →
        heartbeatTick cfg workerId now (some t)
          = (some { t with heartbeat_at := some now,
                           lease_until := some (now + cfg.LEASE_SECONDS) },
             false)) := by
  refine ⟨rfl, ?_, ?_⟩
  · intro h
    unfold heartbeatTick
    rcases h with ⟨w, hw, hne⟩ | hs
    · simp [hw, hne]
    · cases hw : t.worker_id <;> simp [hw, hs]
  · intro hw hs
    unfold heartbeatTick
    rcases hw with hw | hw <;> simp [hw, hs]

/-- Witness for C5: a task taken over by another worker is cleared, and a
healthy owned PROCESSING task gets its heartbeat and lease refreshed. -/
theorem heartbeat_tick_spec_witness :
    heartbeatTick defaultCfg "w1" 50
        (some { mkTask 1 with status := "PROCESSING", worker_id := some "w2" })
      = (some { mkTask 1 with status := "PROCESSING", worker_id := none,
                              lease_until := none, heartbeat_at := none,
                              processing_started_at := none }, true)
    ∧ heartbeatTick defaultCfg "w1" 50
        (some { mkTask 1 with status := "PROCESSING", worker_id := some "w1" })
      = (some { mkTask 1 with status := "PROCESSING", worker_id := some "w1",
                              heartbeat_at := some 50,
                              lease_until := some 650 }, false) := by
  constructor
  · exact (heartbeat_tick_spec defaultCfg "w1" 50
      { mkTask 1 with status := "PROCESSING", worker_id := some "w2" }).2.1
      (Or.inl ⟨"w2", rfl, by decide⟩)
  · have := (heartbeat_tick_spec defaultCfg "w1" 50
      { mkTask 1 with status := "PROCESSING", worker_id := some "w1" }).2.2
      (Or.inr rfl) rfl
    simpa using this

/-! ## C3: retry exhaustion and counter reset -/

/-- An orphaned PROCESSING task on the persistent-counter path with the
retry budget already exhausted (`max_attempts = 0`). -/
def taskC3 : Task :=
  { mkTask 2 with status := "PROCESSING", lease_until := some 0,
                  attempt := some 0, max_attempts := some 0 }

/-- An orphaned PROCESSING task on the in-memory fallback path
(`max_attempts` absent). -/
def taskC3m : Task :=
  { mkTask 3 with status := "PROCESSING", lease_until := some 0,
                  max_attempts := none }

/-- C3 counterexample: on the persistent path (`max_attempts` present, the
default in the model) the rescue-to-FAILED transition does not reset the
attempt counter — it stays at 1 — and a subsequent manual restart leaves it at
1 as well, so retry counting does not restart from zero as the claim states. -/
theorem rescue_retry_reset_cex :
    (rescueOne defaultCfg 1000 mem0 taskC3).1.status = "FAILED"
    ∧ (rescueOne defaultCfg 1000 mem0 taskC3).1.attempt = some 1
    ∧ (restartStep 2000 (rescueOne defaultCfg 1000 mem0 taskC3).1).attempt
        = some 1 :=
  ⟨rfl, rfl, rfl⟩

/-- C3 amended: once the retry budget is exceeded the next rescue sets FAILED
rather than QUEUED in both counter modes; the in-memory fallback counter (used
when `max_attempts` is absent) is reset on that FAILED transition, but the
persistent `attempt` column is not reset, neither by the transition nor by a
manual restart. -/
theorem rescue_retry_bound_amended (cfg : Config) (now now2 : Int)
    (mem : MemAttempts) (t : Task)
    (hst : t.status = "PROCESSING") (horph : isOrphan cfg now t = true) :
    (t.max_attempts = none → mem t.id + 1 > cfg.MAX_RETRIES →
      (rescueOne cfg now mem t).1.status = "FAILED"
      ∧ (rescueOne cfg now mem t).2 t.id = 0)
    ∧ (∀ M, t.max_attempts = some M → pyOrInt t.attempt 0 + 1 > M →
      (rescueOne cfg now mem t).1.status = "FAILED"
      ∧ (rescueOne cfg now mem t).1.attempt = some (pyOrInt t.attempt 0 + 1)
      ∧ (restartStep now2 (rescueOne cfg now mem t).1).attempt
          = some (pyOrInt t.attempt 0 + 1)) := by
  constructor
  · intro hm hexc
    have hcond : ¬ ((incMemoryAttempt mem t.id).2 ≤ cfg.MAX_RETRIES) := by
      simp [incMemoryAttempt]; omega
    simp [rescueOne, hst, horph, hm, hcond, resetMemoryAttempt]
  · intro M hm hexc
    have hcond : ¬ (M - (pyOrInt t.attempt 0 + 1) ≥ 0) := by omega
    simp [rescueOne, hst, horph, hm, hcond, restartStep]

/-- Witness for C3 amended: both counter modes at concrete exhausted tasks. -/
theorem rescue_retry_bound_amended_witness :
    ((rescueOne defaultCfg 1000 mem0 taskC3m).1.status = "FAILED"
      ∧ (rescueOne defaultCfg 1000 mem0 taskC3m).2 taskC3m.id = 0)
    ∧ ((rescueOne defaultCfg 1000 mem0 taskC3).1.status = "FAILED"
      ∧ (rescueOne defaultCfg 1000 mem0 taskC3).1.attempt
          = some (pyOrInt taskC3.attempt 0 + 1)
      ∧ (restartStep 2000 (rescueOne defaultCfg 1000 mem0 taskC3).1).attempt
          = some (pyOrInt taskC3.attempt 0 + 1)) :=
  ⟨(rescue_retry_bound_amended defaultCfg 1000 2000 mem0 taskC3m rfl
      (by decide)).1 rfl (by decide),
   (rescue_retry_bound_amended defaultCfg 1000 2000 mem0 taskC3 rfl
      (by decide)).2 0 rfl (by decide)⟩

/-! ## C4: the processing-timeout rescue scenario -/

/-- The C4 scenario task at `now = 1000`: PROCESSING, `processing_started_at`
700s in the past, unexpired lease, fresh heartbeat, retry budget left. -/
def taskC4 : Task :=
  { mkTask 1 with status := "PROCESSING", processing_started_at := some 300,
                  lease_until := some 2000, heartbeat_at := some 995,
                  attempt := some 0, max_attempts := some 5 }

/-- C4 counterexample: in the claimed scenario the task is requeued with
attempt incremented by 1, but the recorded reason string does not contain
"processing_timeout" — the code labels the condition `processing>600s`. -/
theorem rescue_timeout_scenario_cex :
    (rescueOne defaultCfg 1000 mem0 taskC4).1.status = "QUEUED"
    ∧ (rescueOne defaultCfg 1000 mem0 taskC4).1.attempt = some 1
    ∧ strContainsSub ((rescueOne defaultCfg 1000 mem0 taskC4).1.error_msg.getD "")
        "processing_timeout" = false := by
  refine ⟨rfl, rfl, by decide⟩

/-- C4 amended: a PROCESSING task 700s into its processing stage with
`MAX_PROCESSING_SECONDS = 600`, an unexpired lease, a fresh heartbeat and
remaining retry budget is requeued by one rescue pass with its attempt count
incremented by exactly 1 and a reason string containing `processing>600s`
(the code's label for the processing-timeout condition). -/
theorem rescue_timeout_scenario_amended (cfg : Config) (now lease hb M : Int)
    (mem : MemAttempts) (t : Task)
    (hcap : cfg.MAX_PROCESSING_SECONDS = 600)
    (hst : t.status = "PROCESSING")
    (hpsa : t.processing_started_at = some (now - 700))
    (hl : t.lease_until = some lease) (hlv : now ≤ lease)
    (hhb : t.heartbeat_at = some hb) (hfresh : now - cfg.STALE_SECONDS ≤ hb)
    (ha : t.attempt = some 0)
    (hM : t.max_attempts = some M) (hM1 : 1 ≤ M) :
    (rescueOne cfg now mem t).1.status = "QUEUED"
    ∧ (rescueOne cfg now mem t).1.attempt = some 1
    ∧ strContainsSub ((rescueOne cfg now mem t).1.error_msg.getD "")
        "processing>600s" = true := by
  have hle : leaseExpired now t = false := by
    simp [leaseExpired, hl]; omega
  have hhs : heartbeatStale (now - cfg.STALE_SECONDS) t = false := by
    simp [heartbeatStale, hhb]; omega
  have hoc : overProcessingCap cfg now t = true := by
    simp only [overProcessingCap, processingSeconds, rescueStart, hpsa, hcap,
      decide_eq_true_eq]
    omega
  have horph : isOrphan cfg now t = true := by
    simp [isOrphan, hle, hhs, hoc]
  have hreasons : rescueReasons cfg now t = ["processing>600s"] := by
    simp [rescueReasons, hle, hhs, hoc, hcap]
    decide
  have hcond : M - (pyOrInt t.attempt 0 + 1) ≥ 0 := by
    simp [ha, pyOrInt]; omega
  have hatt : pyOrInt t.attempt 0 + 1 = 1 := by simp [ha, pyOrInt]
  simp [rescueOne, hst, horph, hM, hreasons, hatt, hcond, hatt ▸ hcond]
  decide

/-- Witness for C4 amended: the concrete scenario task at `now = 1000`. -/
theorem rescue_timeout_scenario_amended_witness :
    (rescueOne defaultCfg 1000 mem0 taskC4).1.status = "QUEUED"
    ∧ (rescueOne defaultCfg 1000 mem0 taskC4).1.attempt = some 1
    ∧ strContainsSub ((rescueOne defaultCfg 1000 mem0 taskC4).1.error_msg.getD "")
        "processing>600s" = true :=
  rescue_timeout_scenario_amended defaultCfg 1000 2000 995 5 mem0 taskC4
    rfl rfl (by decide) rfl (by decide) rfl (by decide) rfl rfl (by decide)

/-! ## C2: the QUEUED-implies-unowned invariant -/

/-- `rescueOne` either leaves the row untouched or clears `worker_id`. -/
lemma rescueOne_eq_or_worker_none (cfg : Config) (now : Int)
    (mem : MemAttempts) (t : Task) :
    (rescueOne cfg now mem t).1 = t
    ∨ (rescueOne cfg now mem t).1.worker_id = none := by
  by_cases h1 : t.status = "PROCESSING"
  · by_cases h2 : isOrphan cfg now t = true
    · right
      cases hm : t.max_attempts <;>
        simp [rescueOne, h1, h2, hm] <;> try (split <;> simp)
    · left
      have : isOrphan cfg now t = false := by
        cases h : isOrphan cfg now t
        · rfl
        · exact absurd h h2
      simp [rescueOne, h1, this]
  · left
    simp [rescueOne, h1]

/-- Every row produced by the rescue pass is the `rescueOne` image of some
input row (for some intermediate fallback table). -/
lemma rescueOrphanTasks_mem (cfg : Config) (now : Int) :
    ∀ (tasks : List Task) (mem : MemAttempts),
      ∀ t' ∈ (rescueOrphanTasks cfg now mem tasks).1,
        ∃ t ∈ tasks, ∃ m, t' = (rescueOne cfg now m t).1 := by
  intro tasks
  induction tasks with
  | nil => intro mem t' h; simp [rescueOrphanTasks] at h
  | cons hd tl ih =>
    intro mem t' h
    simp only [rescueOrphanTasks, List.mem_cons] at h
    rcases h with h | h
    · exact ⟨hd, by simp, mem, h⟩
    · obtain ⟨t, ht, m, hm⟩ := ih _ t' h
      exact ⟨t, by simp [ht], m, hm⟩

/-- C2 counterexample: the `confirm` route sets a task's status to QUEUED
without clearing `worker_id` — applied to a task whose `worker_id` is still
set, it produces a QUEUED task with a non-null `worker_id`, refuting the
claim that every core operation that sets QUEUED also clears `worker_id`. -/
theorem confirm_keeps_worker_cex :
    (confirmStep 0 { mkTask 1 with status := "PROCESSING",
                                   worker_id := some "w" }).status = "QUEUED"
    ∧ (confirmStep 0 { mkTask 1 with status := "PROCESSING",
                                     worker_id := some "w" }).worker_id
        = some "w" :=
  ⟨rfl, rfl⟩

/-- C2 amended: the dispatcher tick (rescue then admission) preserves the
invariant that every QUEUED task has a null `worker_id`; the rescue pass
clears `worker_id` on every row it requeues, and the manual restart route
clears it as well — but the `confirm`/`reburn` routes set QUEUED without
clearing it, so the invariant is only preserved, not re-established. -/
theorem queued_worker_invariant (cfg : Config) (workerId : String) (now : Int)
    (mem : MemAttempts) (tasks : List Task)
    (hinv : ∀ t ∈ tasks, t.status = "QUEUED" → t.worker_id = none) :
    (∀ t' ∈ (dispatcherTick cfg workerId now mem tasks).1,
        t'.status = "QUEUED" → t'.worker_id = none)
    ∧ (∀ t, t.status = "PROCESSING" →
        (rescueOne cfg now mem t).1.status = "QUEUED" →
        (rescueOne cfg now mem t).1.worker_id = none)
    ∧ (∀ t, (restartStep now t).worker_id = none) := by
  refine ⟨?_, ?_, fun t => rfl⟩
  · intro t' ht' hq
    simp only [dispatcherTick, List.mem_map] at ht'
    obtain ⟨t1, ht1, heq⟩ := ht'
    by_cases hc : (((listQueue (rescueOrphanTasks cfg now mem tasks).1).take
        (cfg.MAX_PARALLEL - countProcessing (rescueOrphanTasks cfg now mem tasks).1)).filter
        (fun t => t.status = "QUEUED")).any (fun c => c.id = t1.id) ∧ t1.status = "QUEUED"
    · rw [if_pos hc] at heq
      subst heq
      simp [admitTask] at hq
    · rw [if_neg hc] at heq
      subst heq
      obtain ⟨t0, ht0, m, hm⟩ := rescueOrphanTasks_mem cfg now tasks mem t1 ht1
      rcases rescueOne_eq_or_worker_none cfg now m t0 with h | h
      · rw [hm, h] at hq ⊢
        exact hinv t0 ht0 hq
      · rw [hm]; exact h
  · intro t hp hq
    rcases rescueOne_eq_or_worker_none cfg now mem t with h | h
    · rw [h] at hq; rw [hq] at hp; exact absurd hp (by decide)
    · exact h

/-- Witness for C2 amended: the tick on a single healthy queued task keeps the
invariant, and restart clears `worker_id`. -/
theorem queued_worker_invariant_witness :
    (restartStep 5 (mkTask 1)).worker_id = none
    ∧ ((mkTask 1).status = "QUEUED" → (mkTask 1).worker_id = none) :=
  ⟨(queued_worker_invariant defaultCfg "w" 5 mem0 [mkTask 1]
      (by decide)).2.2 (mkTask 1),
   fun _ => rfl⟩

/-! ## C6: killable runner error behaviour -/

/-- If no stop request is visible from tick `i` until the process exits, the
loop reaches the exit branch. -/
lemma killableRunGo_no_stop (cmd : List String) (exitAt : Nat) (rc : Int)
    (stderr : String) (stop : Nat → Bool) (hasTask check : Bool) :
    ∀ i, (∀ j, i ≤ j → j < exitAt → (hasTask && stop j) = false) →
      killableRunGo cmd exitAt rc stderr stop hasTask check i
        = if check ∧ rc ≠ 0
          then (.commandFailed (commandFailedMsg cmd rc stderr), [])
          else (.completed rc, []) := by
  suffices hgen : ∀ n i, exitAt - i ≤ n →
      (∀ j, i ≤ j → j < exitAt → (hasTask && stop j) = false) →
      killableRunGo cmd exitAt rc stderr stop hasTask check i
        = if check ∧ rc ≠ 0
          then (.commandFailed (commandFailedMsg cmd rc stderr), [])
          else (.completed rc, []) by
    intro i hns
    exact hgen (exitAt - i) i (Nat.le_refl _) hns
  intro n
  induction n with
  | zero =>
    intro i hle hns
    have hi : exitAt ≤ i := by omega
    rw [killableRunGo, if_pos hi]
  | succ n ih =>
    intro i hle hns
    by_cases hi : exitAt ≤ i
    · rw [killableRunGo, if_pos hi]
    · have hstop : (hasTask && stop i) = false :=
        hns i (Nat.le_refl i) (by omega)
      rw [killableRunGo, if_neg hi, if_neg (by simp [hstop])]
      exact ih (i + 1) (by omega) (fun j hj hj2 => hns j (by omega) hj2)

/-- If the first visible stop request arrives at tick `i₀` before the process
exits, the loop cancels with the TERM-grace-KILL sequence. -/
lemma killableRunGo_stop (cmd : List String) (exitAt : Nat) (rc : Int)
    (stderr : String) (stop : Nat → Bool) (hasTask check : Bool) :
    ∀ i i₀, i ≤ i₀ → i₀ < exitAt → (hasTask && stop i₀) = true →
      (∀ j, i ≤ j → j < i₀ → (hasTask && stop j) = false) →
      killableRunGo cmd exitAt rc stderr stop hasTask check i
        = (.cancelled, [.sigtermGroup, .graceSleep, .sigkillGroup]) := by
  suffices hgen : ∀ n i i₀, i₀ - i ≤ n → i ≤ i₀ → i₀ < exitAt →
      (hasTask && stop i₀) = true →
      (∀ j, i ≤ j → j < i₀ → (hasTask && stop j) = false) →
      killableRunGo cmd exitAt rc stderr stop hasTask check i
        = (.cancelled, [.sigtermGroup, .graceSleep, .sigkillGroup]) by
    intro i i₀ h1 h2 h3 h4
    exact hgen (i₀ - i) i i₀ (Nat.le_refl _) h1 h2 h3 h4
  intro n
  induction n with
  | zero =>
    intro i i₀ hle hii hlt hhit _
    have : i = i₀ := by omega
    subst this
    rw [killableRunGo, if_neg (by omega), if_pos hhit]
  | succ n ih =>
    intro i i₀ hle hii hlt hhit hpre
    by_cases heq : i = i₀
    · subst heq
      rw [killableRunGo, if_neg (by omega), if_pos hhit]
    · have hstop : (hasTask && stop i) = false :=
        hpre i (Nat.le_refl i) (by omega)
      rw [killableRunGo, if_neg (by omega), if_neg (by simp [hstop])]
      exact ih (i + 1) i₀ (by omega) (by omega) hlt hhit
        (fun j hj hj2 => hpre j (by omega) hj2)

/-- C6: with `check=true`, a non-zero exit code with no stop request raises
the `Command failed` error carrying the last 2000 characters of stderr, while
a stop request detected mid-run yields the distinct `Cancelled` outcome after
the TERM, grace-sleep, KILL sequence on the process group. -/
theorem killable_run_outcomes (cmd : List String) (exitAt : Nat) (rc : Int)
    (stderr : String) (stop : Nat → Bool) (hasTask : Bool) :
    ((∀ j, j < exitAt → (hasTask && stop j) = false) → rc ≠ 0 →
      killableRun cmd exitAt rc stderr stop hasTask true
        = (.commandFailed (commandFailedMsg cmd rc stderr), []))
    ∧ (∀ i₀, i₀ < exitAt → (hasTask && stop i₀) = true →
        (∀ j, j < i₀ → (hasTask && stop j) = false) →
        killableRun cmd exitAt rc stderr stop hasTask true
          = (.cancelled, [.sigtermGroup, .graceSleep, .sigkillGroup]))
    ∧ (∀ m, RunOutcome.cancelled ≠ RunOutcome.commandFailed m)
    ∧ commandFailedMsg cmd rc stderr
        = "Command failed (" ++ toString rc ++ "): "
            ++ String.intercalate " " cmd ++ "\n" ++ strTakeRight stderr 2000 := by
  refine ⟨?_, ?_, ?_, rfl⟩
  · intro hns hrc
    unfold killableRun
    rw [killableRunGo_no_stop cmd exitAt rc stderr stop hasTask true 0
      (fun j _ hj => hns j hj), if_pos ⟨rfl, hrc⟩]
  · intro i₀ h1 h2 h3
    exact killableRunGo_stop cmd exitAt rc stderr stop hasTask true 0 i₀
      (Nat.zero_le _) h1 h2 (fun j _ hj => h3 j hj)
  · intro m h
    cases h

/-- Witness for C6: a failing command with no stop raises `Command failed`,
and a stop request at the second poll tick cancels. -/
theorem killable_run_outcomes_witness :
    killableRun ["ffmpeg"] 2 1 "boom" (fun _ => false) true true
      = (.commandFailed (commandFailedMsg ["ffmpeg"] 1 "boom"), [])
    ∧ killableRun ["ffmpeg"] 2 0 "" (fun i => decide (i = 1)) true true
      = (.cancelled, [.sigtermGroup, .graceSleep, .sigkillGroup]) :=
  ⟨(killable_run_outcomes ["ffmpeg"] 2 1 "boom" (fun _ => false) true).1
      (by decide) (by decide),
   (killable_run_outcomes ["ffmpeg"] 2 0 "" (fun i => decide (i = 1)) true).2.1
      1 (by decide) (by decide) (by decide)⟩

/-! ## C7: finalize failures revert to REVIEW, never FAILED -/

/-- Exits of the mux tail keep the status, revert to REVIEW, or succeed. -/
lemma finalizeMux_status (env : FinalizeEnv) (t : Task) :
    (finalizeMux env t).status = t.status
    ∨ (finalizeMux env t).status = "REVIEW"
    ∨ (finalizeMux env t).status = "SUCCESS" := by
  unfold finalizeMux finExn failWith
  rcases hmux : env.mux with e | u <;> simp only [hmux] <;> split_ifs <;> simp

/-- Exits of the TTS step and its tail keep the status, revert to REVIEW, or
succeed. -/
lemma finalizeTTS_status (env : FinalizeEnv) (t : Task) :
    (finalizeTTS env t).status = t.status
    ∨ (finalizeTTS env t).status = "REVIEW"
    ∨ (finalizeTTS env t).status = "SUCCESS" := by
  unfold finalizeTTS failWith
  split_ifs <;> simp
  have hadv : (advance { t with tts_file := some (ttsRel t) } 90
      "最终视频合成中...").status = t.status := rfl
  rcases finalizeMux_status env
      (advance { t with tts_file := some (ttsRel t) } 90 "最终视频合成中...")
    with h | h | h <;> simp [h, hadv]

/-- Every exit of `process_finalize` leaves the status at its input value, at
PROCESSING (quiet cancellation exits), at REVIEW, or at SUCCESS. -/
lemma processFinalize_status_cases (env : FinalizeEnv) (now : Int) (t : Task) :
    (processFinalize env now t).status = t.status
    ∨ (processFinalize env now t).status = "PROCESSING"
    ∨ (processFinalize env now t).status = "REVIEW"
    ∨ (processFinalize env now t).status = "SUCCESS" := by
  unfold processFinalize
  split_ifs
  · exact Or.inl rfl
  · exact Or.inr (Or.inl rfl)
  · exact Or.inr (Or.inl rfl)
  · exact Or.inr (Or.inl rfl)
  · exact Or.inr (Or.inl rfl)
  · rcases finalizeTTS_status env (advance { t with status := "PROCESSING", progress := some 70, msg := some "语音合成中...", translation_confirmed_at := some now } 75 "TTS 合成中...")
      with h | h | h
    · exact Or.inr (Or.inl h)
    · exact Or.inr (Or.inr (Or.inl h))
    · exact Or.inr (Or.inr (Or.inr h))

/-- C7: in finalize, a speech-synthesis failure caused by a stop request puts
the task in REVIEW (not FAILED) with `final_video_file` unchanged; a
non-cancellation TTS failure and a non-cancellation mux failure likewise
revert to REVIEW with an error message; and no finalize run ever moves a task
to FAILED. -/
theorem finalize_failures_revert_to_review (env : FinalizeEnv) (now : Int)
    (t : Task)
    (hst : t.status = "REVIEW" ∨ t.status = "PROCESSING" ∨ t.status = "SUCCESS")
    (h0 : env.stop 0 = false) (h1 : env.stop 1 = false)
    (h2 : env.stop 2 = false) (h3 : env.stop 3 = false) :
    (env.tts_ok = false → env.stop 4 = true →
      (processFinalize env now t).status = "REVIEW"
      ∧ (processFinalize env now t).final_video_file = t.final_video_file)
    ∧ (env.tts_ok = false → env.stop 4 = false →
      (processFinalize env now t).status = "REVIEW"
      ∧ (processFinalize env now t).error_msg
          = some ("TTS 失败：" ++ env.tts_msg))
    ∧ (∀ e b, env.tts_ok = true → env.stop 4 = false → env.stop 5 = false →
        t.bg_video_file = some b → env.mux = .error e → e ≠ "Cancelled" →
        (processFinalize env now t).status = "REVIEW"
        ∧ (processFinalize env now t).error_msg = some ("阶段二异常：" ++ e))
    ∧ (∀ env' : FinalizeEnv, t.status ≠ "FAILED" →
        (processFinalize env' now t).status ≠ "FAILED") := by
  have hguard : ¬ (t.status ≠ "REVIEW" ∧ t.status ≠ "PROCESSING"
      ∧ t.status ≠ "SUCCESS") := by
    rcases hst with h | h | h <;> simp [h]
  refine ⟨?_, ?_, ?_, ?_⟩
  · intro hok h4
    simp [processFinalize, finalizeTTS, hguard, h0, h1, h2, h3, h4, hok,
      advance]
  · intro hok h4
    simp [processFinalize, finalizeTTS, hguard, h0, h1, h2, h3, h4, hok,
      advance, failWith]
  · intro e b hok h4 h5 hb hmux hce
    simp [processFinalize, finalizeTTS, finalizeMux, hguard, h0, h1, h2, h3,
      h4, h5, hok, advance, failWith, hb, hmux, finExn, hce]
  · intro env' hne
    rcases processFinalize_status_cases env' now t with h | h | h | h <;>
      rw [h] <;> simp_all

/-- A finalize environment in which the TTS step fails while a stop request
is visible at the post-TTS poll. -/
def envC7 : FinalizeEnv :=
  { stop := fun i => decide (i = 4), tts_ok := false, tts_msg := "",
    mux := .ok (), publish := none }

/-- The C7 scenario task: in REVIEW with prior artifacts. -/
def taskC7 : Task :=
  { mkTask 9 with status := "REVIEW", final_video_file := some "old.mp4",
                  bg_video_file := some "bg.mp4" }

/-- Witness for C7: a cancelled TTS step reverts the task to REVIEW and keeps
the previous final video reference. -/
theorem finalize_failures_revert_to_review_witness :
    (processFinalize envC7 5 taskC7).status = "REVIEW"
    ∧ (processFinalize envC7 5 taskC7).final_video_file = some "old.mp4" :=
  (finalize_failures_revert_to_review envC7 5 taskC7 (Or.inl rfl)
    rfl rfl rfl rfl).1 rfl rfl

/-! ## C8: the prepare-stage duration guard -/

/-- A benign prepare environment: no stop requests, all collaborators
succeed, the probe reports a 400s duration. -/
def envC8 : PrepareEnv :=
  { stop := fun _ => false, probe := .ok 400, extract := .ok (),
    separate := .ok (), muxBg := .ok (), segs := [],
    translate := .ok (fun _ => none, true, "ok") }

/-- A task whose stored duration (400s) already exceeds the 300s cap. -/
def taskC8 : Task := { mkTask 7 with video_duration_seconds := 400 }

/-- C8 counterexample: a task entering prepare with a stored media duration of
400s — above the 300s cap — is not failed: the probe branch is skipped
entirely and the run ends in REVIEW, refuting the claim that prepare fails
every task whose duration exceeds the cap. -/
theorem prepare_duration_guard_cex :
    taskC8.video_duration_seconds > defaultCfg.MAX_VIDEO_SECONDS
    ∧ (processPrepare defaultCfg envC8 taskC8).status = "REVIEW" := by
  constructor
  · norm_num [taskC8, mkTask, defaultCfg]
  · have hred : processPrepare defaultCfg envC8 taskC8
        = preparePost envC8 1
            { taskC8 with status := "PROCESSING",
                          progress := some (max 5 (pyOrInt taskC8.progress 5)),
                          msg := some "开始处理" } := by
      simp only [processPrepare]
      rw [if_neg (by simp [envC8]), if_neg (by norm_num [taskC8, mkTask])]
    rw [hred]
    rfl

/-- C8 amended: prepare consults the media probe only when the stored
`video_duration_seconds` is below 0.1 (its result is otherwise irrelevant to
the run); when the probe does run and reports a duration above
`MAX_VIDEO_SECONDS`, the task is failed with the over-length error message. -/
theorem prepare_duration_guard_amended (cfg : Config) (env : PrepareEnv)
    (t : Task) :
    (¬ t.video_duration_seconds < 1 / 10 →
      ∀ p1 p2, processPrepare cfg { env with probe := p1 } t
        = processPrepare cfg { env with probe := p2 } t)
    ∧ (∀ d, t.video_duration_seconds < 1 / 10 →
        env.stop 0 = false → env.stop 1 = false →
        env.probe = .ok d → d > cfg.MAX_VIDEO_SECONDS →
        (processPrepare cfg env t).status = "FAILED"
        ∧ (processPrepare cfg env t).error_msg
            = some ("视频过长：" ++ toString d ++ "s（限制≤"
                ++ toString cfg.MAX_VIDEO_SECONDS ++ "s）")) := by
  constructor
  · intro h p1 p2
    unfold processPrepare
    simp only [if_neg h]
    rfl
  · intro d hdur h0 h1 hp hcap
    simp only [processPrepare]
    rw [if_neg (by simp [h0]), if_pos hdur, if_neg (by simp [h1]), hp]
    simp [advance, failWith, hcap]

/-- Witness for C8 amended: with a zero stored duration the probe result of
400s (above the 300s cap) fails the task. -/
theorem prepare_duration_guard_amended_witness :
    (processPrepare defaultCfg envC8 (mkTask 7)).status = "FAILED"
    ∧ (processPrepare defaultCfg envC8 (mkTask 7)).error_msg
        = some ("视频过长：" ++ toString (400 : ℚ) ++ "s（限制≤"
            ++ toString (300 : ℚ) ++ "s）") :=
  (prepare_duration_guard_amended defaultCfg envC8 (mkTask 7)).2 400
    (by norm_num [mkTask]) rfl rfl rfl (by norm_num [defaultCfg])

/-! ## C9: queue position and admission order -/

/-- The claim's "count of QUEUED tasks with a strictly earlier order key
(`enqueued_at` if present else `created_at`), ties broken by smaller id". -/
def earlierCount (tasks : List Task) (t : Task) : Nat :=
  (tasks.filter (fun u => decide (u.status = "QUEUED")
    && (decide (orderKey u < orderKey t)
        || (decide (orderKey u = orderKey t) && decide (u.id < t.id))))).length

/-- Strict filter-count comparison: a member satisfying `q` but not `p`
(with `p` entailing `q`) makes the `p`-count strictly smaller. -/
lemma length_filter_lt_of_mem {α : Type} {p q : α → Bool} {l : List α} {x : α}
    (hx : x ∈ l) (hqx : q x = true) (hpx : p x = false)
    (himp : ∀ y, p y = true → q y = true) :
    (l.filter p).length < (l.filter q).length := by
  induction l with
  | nil => cases hx
  | cons a l ih =>
    rcases List.mem_cons.mp hx with rfl | hmem
    · have hsub := (List.monotone_filter_right l himp).length_le
      simp [List.filter_cons, hpx, hqx]
      omega
    · by_cases hpa : p a = true
      · have hqa := himp a hpa
        simp only [List.filter_cons, hpa, hqa, if_true, List.length_cons]
        exact Nat.succ_lt_succ (ih hmem)
      · have hpa' : p a = false := by
          cases h : p a
          · rfl
          · exact absurd h hpa
        by_cases hqa : q a = true
        · simp only [List.filter_cons, hpa', hqa, if_true, List.length_cons,
            Bool.false_eq_true, if_false]
          exact Nat.lt_succ_of_lt (ih hmem)
        · have hqa' : q a = false := by
            cases h : q a
            · rfl
            · exact absurd h hqa
          simp only [List.filter_cons, hpa', hqa', Bool.false_eq_true, if_false]
          exact ih hmem

/-- C9: for a QUEUED task in the store, the reported queue position is the
number of QUEUED tasks strictly earlier in queue order (order key
`enqueued_at` else `created_at`, ties by smaller id) plus one; and the
admission list consists of exactly the QUEUED tasks, sorted ascending by that
same order. -/
theorem queue_position_and_order (tasks : List Task) (t : Task)
    (hmem : t ∈ tasks) (hq : t.status = "QUEUED") :
    (queuePositionAndLength tasks t).1 = earlierCount tasks t + 1
    ∧ (listQueue tasks).Sorted queueLE
    ∧ List.Perm (listQueue tasks) (tasks.filter (fun u => u.status = "QUEUED")) := by
  refine ⟨?_, List.sorted_insertionSort _ _, List.perm_insertionSort _ _⟩
  have hlt : earlierCount tasks t < countQueued tasks := by
    apply length_filter_lt_of_mem hmem
    · simp [hq]
    · simp [hq]
    · intro y hy
      simp only [Bool.and_eq_true, decide_eq_true_eq] at hy
      simp [hy.1]
  have htot : 0 < countQueued tasks := Nat.lt_of_le_of_lt (Nat.zero_le _) hlt
  have hcnt : (tasks.filter
      (fun u => decide (u.status = "QUEUED") && queueBefore u t)).length
      = earlierCount tasks t := rfl
  simp only [queuePositionAndLength, hq, ne_eq, not_true_eq_false,
    if_false, hcnt]
  rw [if_pos htot, Nat.min_eq_right (by omega)]

/-- Witness for C9: a three-task store with one PROCESSING and two QUEUED
tasks; the later-queued task is at position 2. -/
theorem queue_position_and_order_witness :
    (queuePositionAndLength
        [{ mkTask 1 with status := "PROCESSING" },
         { mkTask 2 with status := "QUEUED", enqueued_at := some 10 },
         { mkTask 3 with status := "QUEUED", enqueued_at := some 20 }]
        { mkTask 3 with status := "QUEUED", enqueued_at := some 20 }).1
      = earlierCount
          [{ mkTask 1 with status := "PROCESSING" },
           { mkTask 2 with status := "QUEUED", enqueued_at := some 10 },
           { mkTask 3 with status := "QUEUED", enqueued_at := some 20 }]
          { mkTask 3 with status := "QUEUED", enqueued_at := some 20 } + 1 :=
  (queue_position_and_order _ _ (by simp) rfl).1

/-! ## C10: the SRT timestamp round trip -/

set_option maxRecDepth 10000

/-- Two-digit zero-padded decimal rendering: length, value, and character
class, for every value below 100. -/
lemma zfill2_facts : ∀ n, n < 100 → (zfill 2 (Nat.toDigits 10 n)).length = 2
    ∧ digitsVal (zfill 2 (Nat.toDigits 10 n)) = n
    ∧ ∀ c ∈ zfill 2 (Nat.toDigits 10 n),
        c.isDigit = true ∧ c.isWhitespace = false := by decide

/-- Three-digit zero-padded decimal rendering, for every value below 1000. -/
lemma zfill3_facts : ∀ n, n < 1000 → (zfill 3 (Nat.toDigits 10 n)).length = 3
    ∧ digitsVal (zfill 3 (Nat.toDigits 10 n)) = n
    ∧ msOfDigits (zfill 3 (Nat.toDigits 10 n)) = n
    ∧ ∀ c ∈ zfill 3 (Nat.toDigits 10 n),
        c.isDigit = true ∧ c.isWhitespace = false := by decide

/-- Greedy digit-taking splits a digit block followed by a non-digit (or the
end) exactly at the boundary. -/
lemma takeDigits_append (d r : List Char) (hd : ∀ c ∈ d, c.isDigit = true)
    (hr : ∀ c, r.head? = some c → c.isDigit = false) :
    takeDigits (d ++ r) = (d, r) := by
  induction d with
  | nil =>
    cases r with
    | nil => rfl
    | cons c rs =>
      have hc := hr c rfl
      simp [takeDigits, hc]
  | cons a d ih =>
    have ha := hd a (List.mem_cons_self a d)
    have ih' := ih (fun c hc => hd c (List.mem_cons_of_mem a hc))
    simp only [List.cons_append, takeDigits, ha, if_true, List.append_eq, ih']

/-- `dropWhile isWhitespace` is the identity on whitespace-free text. -/
lemma dropWhile_ws_eq_self (cs : List Char)
    (h : ∀ c ∈ cs, c.isWhitespace = false) :
    cs.dropWhile Char.isWhitespace = cs := by
  cases cs with
  | nil => rfl
  | cons a l => simp [List.dropWhile_cons, h a (List.mem_cons_self a l)]

/-- Stripping is the identity on whitespace-free text. -/
lemma stripChars_eq_self (cs : List Char)
    (h : ∀ c ∈ cs, c.isWhitespace = false) :
    stripChars cs = cs := by
  unfold stripChars
  rw [dropWhile_ws_eq_self cs h,
    dropWhile_ws_eq_self cs.reverse (fun c hc => h c (List.mem_reverse.mp hc)),
    List.reverse_reverse]

/-- Parsing a rendered sub-100-hour millisecond count recovers the divmod
components. -/
lemma parse_msToSrt (N : Nat) (hN : N < 360000000) :
    parse_time_to_seconds (msToSrt N)
      = .ok (((N / 3600000 : ℕ) : ℚ) * 3600
          + ((N % 3600000 / 60000 : ℕ) : ℚ) * 60
          + ((N % 3600000 % 60000 / 1000 : ℕ) : ℚ)
          + ((N % 3600000 % 60000 % 1000 : ℕ) : ℚ) / 1000) := by
  obtain ⟨hAl, hAv, hAc⟩ := zfill2_facts (N / 3600000) (by omega)
  obtain ⟨hBl, hBv, hBc⟩ := zfill2_facts (N % 3600000 / 60000) (by omega)
  obtain ⟨hCl, hCv, hCc⟩ := zfill2_facts (N % 3600000 % 60000 / 1000) (by omega)
  obtain ⟨hDl, hDv, hDm, hDc⟩ := zfill3_facts (N % 3600000 % 60000 % 1000) (by omega)
  set A := zfill 2 (Nat.toDigits 10 (N / 3600000))
  set B := zfill 2 (Nat.toDigits 10 (N % 3600000 / 60000))
  set C := zfill 2 (Nat.toDigits 10 (N % 3600000 % 60000 / 1000))
  set D := zfill 3 (Nat.toDigits 10 (N % 3600000 % 60000 % 1000))
  have hdata : (msToSrt N).data = A ++ ':' :: (B ++ ':' :: (C ++ ',' :: D)) := rfl
  have hall : ∀ c ∈ A ++ ':' :: (B ++ ':' :: (C ++ ',' :: D)),
      c.isWhitespace = false := by
    intro c hc
    simp only [List.mem_append, List.mem_cons] at hc
    rcases hc with h | h | h | h | h | h | h
    · exact (hAc c h).2
    · subst h; decide
    · exact (hBc c h).2
    · subst h; decide
    · exact (hCc c h).2
    · subst h; decide
    · exact (hDc c h).2
  have ht1 : takeDigits (A ++ ':' :: (B ++ ':' :: (C ++ ',' :: D)))
      = (A, ':' :: (B ++ ':' :: (C ++ ',' :: D))) :=
    takeDigits_append _ _ (fun c hc => (hAc c hc).1)
      (fun c hc => by simp at hc; subst hc; decide)
  have ht2 : takeDigits (B ++ ':' :: (C ++ ',' :: D))
      = (B, ':' :: (C ++ ',' :: D)) :=
    takeDigits_append _ _ (fun c hc => (hBc c hc).1)
      (fun c hc => by simp at hc; subst hc; decide)
  have ht3 : takeDigits (C ++ ',' :: D) = (C, ',' :: D) :=
    takeDigits_append _ _ (fun c hc => (hCc c hc).1)
      (fun c hc => by simp at hc; subst hc; decide)
  have ht4 : takeDigits (D ++ []) = (D, []) :=
    takeDigits_append _ _ (fun c hc => (hDc c hc).1)
      (fun c hc => by simp at hc)
  rw [List.append_nil] at ht4
  have hne : A ++ ':' :: (B ++ ':' :: (C ++ ',' :: D)) ≠ [] := by simp
  simp only [parse_time_to_seconds, hdata,
    stripChars_eq_self _ hall, if_neg hne]
  simp [parseSrtMatch, ht1, ht2, ht3, ht4, hAl, hBl, hCl, hDl,
    hAv, hBv, hCv, hDm]

/-- `roundHalfEven` of a non-negative rational is non-negative. -/
lemma roundHalfEven_nonneg (q : ℚ) (hq : 0 ≤ q) : 0 ≤ roundHalfEven q := by
  have hf : 0 ≤ ⌊q⌋ := Int.floor_nonneg.mpr hq
  simp only [roundHalfEven]
  split_ifs <;> omega

/-- `roundHalfEven` moves its argument by at most one half. -/
lemma roundHalfEven_abs (q : ℚ) : |(roundHalfEven q : ℚ) - q| ≤ 1 / 2 := by
  have h1 := Int.floor_le q
  have h2 := Int.lt_floor_add_one q
  simp only [roundHalfEven]
  split_ifs with ha hb hc <;> rw [abs_le] <;> constructor <;>
    push_cast <;> linarith

/-- C10 counterexample: at 360000 seconds (one hundred hours) the formatter
emits a three-digit hour field, which the parser's `\d{1,2}` hour group
rejects, so the round trip raises the format `ValidationError` instead of
returning the rounded value. -/
theorem srt_roundtrip_cex :
    parse_time_to_seconds (format_srt_timestamp 360000)
      = .error "时间格式不正确，请填写 SRT 时间（如 00:01:23,456）或秒数（如 83.456）。" := by
  have h : roundHalfEven ((360000 : ℚ) * 1000) = 360000000 := by
    unfold roundHalfEven
    norm_num
  have hfmt : format_srt_timestamp 360000 = msToSrt 360000000 := by
    unfold format_srt_timestamp
    rw [h]
    norm_num
    rfl
  rw [hfmt]
  rfl

/-- C10 amended: for every non-negative rational number of seconds whose
half-even-rounded millisecond count stays below 100 hours, parsing the
formatted SRT timestamp returns exactly the rounded value (round-half-even to
the nearest millisecond), which differs from the input by at most half a
millisecond. -/
theorem srt_roundtrip_amended (s : ℚ) (hs : 0 ≤ s)
    (hlt : roundHalfEven (s * 1000) < 360000000) :
    parse_time_to_seconds (format_srt_timestamp s)
      = .ok ((roundHalfEven (s * 1000) : ℚ) / 1000)
    ∧ |(roundHalfEven (s * 1000) : ℚ) / 1000 - s| ≤ 1 / 2000 := by
  have h0 : 0 ≤ roundHalfEven (s * 1000) :=
    roundHalfEven_nonneg _ (mul_nonneg hs (by norm_num))
  have hmax : max 0 (roundHalfEven (s * 1000)) = roundHalfEven (s * 1000) :=
    max_eq_right h0
  have hNR : ((roundHalfEven (s * 1000)).toNat : ℤ) = roundHalfEven (s * 1000) :=
    Int.toNat_of_nonneg h0
  set N := (roundHalfEven (s * 1000)).toNat with hNdef
  have hNlt : N < 360000000 := by omega
  have hfmt : format_srt_timestamp s = msToSrt N := by
    unfold format_srt_timestamp
    rw [hmax, ← hNdef]
  constructor
  · rw [hfmt, parse_msToSrt N hNlt]
    congr 1
    have hsplit : N = 3600000 * (N / 3600000) + 60000 * (N % 3600000 / 60000)
        + 1000 * (N % 3600000 % 60000 / 1000) + N % 3600000 % 60000 % 1000 := by
      omega
    have hcast : (N : ℚ) = 3600000 * ((N / 3600000 : ℕ) : ℚ)
        + 60000 * ((N % 3600000 / 60000 : ℕ) : ℚ)
        + 1000 * ((N % 3600000 % 60000 / 1000 : ℕ) : ℚ)
        + ((N % 3600000 % 60000 % 1000 : ℕ) : ℚ) := by
      exact_mod_cast congrArg (fun x : ℕ => (x : ℚ)) hsplit
    have hRN : ((roundHalfEven (s * 1000) : ℤ) : ℚ) = (N : ℚ) := by
      exact_mod_cast congrArg (fun x : ℤ => (x : ℚ)) hNR.symm
    rw [hRN]
    field_simp
    linarith [hcast]
  · have habs := roundHalfEven_abs (s * 1000)
    rw [abs_le] at habs ⊢
    constructor <;> linarith [habs.1, habs.2]

/-- Witness for C10 amended: two seconds round-trips to exactly 2. -/
theorem srt_roundtrip_amended_witness :
    parse_time_to_seconds (format_srt_timestamp 2)
      = .ok ((roundHalfEven ((2 : ℚ) * 1000) : ℚ) / 1000)
    ∧ |(roundHalfEven ((2 : ℚ) * 1000) : ℚ) / 1000 - 2| ≤ 1 / 2000 :=
  srt_roundtrip_amended 2 (by norm_num)
    (by unfold roundHalfEven; norm_num)

end VT

